import Mathlib

/-!
Verification of the cross-provider place-reconciliation and review-aggregation
engine of the Travel_Agent backend
(`backend/app/Tools/place_reviews_tool.py`, `backend/app/API/google_places.py`,
`backend/app/API/tripadvisor.py`).

The Python code is shallowly embedded: the two provider adapters are modelled as
oracles (arbitrary functions returning either a `PlaceDetails`-shaped record or
an exception message), and the tool `get_place_reviews_from_apis` is translated
step by step into a total Lean function producing the same output string.
Python exceptions are explicit outcome constructors; Python string operations
(`strip`, `lower`, `split`, `replace`, truthiness) are modelled character-wise
on `String.data`.  Python floats are modelled as rationals (`ℚ`); numeric
rendering of floats is a decimal rendering that agrees with Python on the
short decimals that occur here.  `str.lower`/`isdigit` are modelled on their
ASCII behaviour, which coincides with Python on the inputs considered.
-/

/-! ## Python string primitives, modelled on `String.data` (`List Char`) -/

/-- Characters that Python's `str.strip()` / `str.split()` treat as whitespace. -/
def isPySpace (c : Char) : Bool :=
  c = ' ' || c = '\t' || c = '\n' || c = '\r' || c = '\x0b' || c = '\x0c'

/-- Python `str.strip()` on a character list: drop leading and trailing whitespace. -/
def stripChars (l : List Char) : List Char :=
  ((l.dropWhile isPySpace).reverse.dropWhile isPySpace).reverse

/-- Python `s.strip()`. -/
def pyStrip (s : String) : String := ⟨stripChars s.data⟩

/-- Python `s.lower()` (ASCII behaviour; all inputs considered are ASCII-cased). -/
def pyLower (s : String) : String := ⟨s.data.map Char.toLower⟩

/-- Split a character list at every character satisfying `p`, keeping empty
segments — the semantics of Python `s.split(sep)` for a one-character `sep`
when `p` tests for `sep`. -/
def splitPred (p : Char → Bool) : List Char → List (List Char)
  | [] => [[]]
  | c :: cs =>
    if p c then [] :: splitPred p cs
    else
      match splitPred p cs with
      | [] => [[c]]
      | w :: ws => (c :: w) :: ws

/-- Python `s.split(sep)` for a single-character separator. -/
def pySplitOn (s : String) (sep : Char) : List String :=
  (splitPred (· == sep) s.data).map (fun l => ⟨l⟩)

/-- Python `s.split()` (no argument): split on whitespace runs, no empty parts. -/
def pyWords (s : String) : List String :=
  ((splitPred isPySpace s.data).filter (· ≠ [])).map (fun l => ⟨l⟩)

/-- Python `s.isdigit()` for the ASCII digits that occur in street addresses. -/
def pyIsDigit (s : String) : Bool :=
  !s.data.isEmpty && s.data.all Char.isDigit

/-- Replace every (non-overlapping, leftmost-first) occurrence of `pat` by
`rep` — the semantics of Python `s.replace(pat, rep)` for non-empty `pat`.
The fuel argument (instantiated with the list length, an upper bound on the
remaining work since a match consumes at least one character) keeps the
recursion structural. -/
def replaceCharsAux (pat rep : List Char) : Nat → List Char → List Char
  | _, [] => []
  | 0, l => l
  | fuel + 1, c :: cs =>
    if pat ≠ [] ∧ pat.isPrefixOf (c :: cs) then
      rep ++ replaceCharsAux pat rep fuel (List.drop (pat.length - 1) cs)
    else
      c :: replaceCharsAux pat rep fuel cs

/-- The function `replaceCharsAux` with enough fuel for the whole list. -/
def replaceChars (pat rep l : List Char) : List Char := replaceCharsAux pat rep l.length l

/-- Python `s.replace(pat, rep)`. -/
def pyReplace (s pat rep : String) : String := ⟨replaceChars pat.data rep.data s.data⟩

/-- Substring occurrence test on character lists. -/
def containsChars (pat : List Char) : List Char → Bool
  | [] => pat.isPrefixOf []
  | c :: cs => pat.isPrefixOf (c :: cs) || containsChars pat cs

/-- Python `pat in s` (substring containment). -/
def strContains (s pat : String) : Bool := containsChars pat.data s.data

/-- The deduplication loop of the tool (lines 221–227), with the `seen`
accumulator: keep the first occurrence of each element, preserving order. -/
def dedupFirstAux (seen : List String) : List String → List String
  | [] => []
  | a :: as =>
    if a ∈ seen then dedupFirstAux seen as
    else a :: dedupFirstAux (a :: seen) as

/-- The function `dedupFirstAux` starting from an empty `seen` set. -/
def dedupFirst (l : List String) : List String := dedupFirstAux [] l

/-- Python truthiness of an `Optional[str]`: `None` and `""` are falsy. -/
def optStrTruthy : Option String → Bool
  | none => false
  | some s => !s.isEmpty

/-- Concatenation of the pieces successively appended (`+=`) to an output
string by the Python code. -/
def concatPieces : List String → String
  | [] => ""
  | p :: ps => p ++ concatPieces ps

/-! ## Numeric rendering helpers -/

/-- Fractional decimal digits of `r / den`, up to `fuel` digits.  Python's
`str(float)` prints the shortest round-tripping decimal; the ratings handled
here have short exact decimal expansions, on which the two renderings agree. -/
def fracDigits : Nat → Nat → Nat → List Char
  | 0, _, _ => []
  | fuel + 1, r, den =>
    if r = 0 then []
    else Char.ofNat (48 + (r * 10) / den) :: fracDigits fuel ((r * 10) % den) den

/-- Decimal rendering of a rational, modelling Python `str(float)`
(e.g. `9/2 ↦ "4.5"`, `4 ↦ "4.0"`). -/
def decStr (x : ℚ) : String :=
  let sign : String := if x.num < 0 then "-" else ""
  let n := x.num.natAbs
  let ip := n / x.den
  let r := n % x.den
  let fr := fracDigits 17 r x.den
  sign ++ toString ip ++ "." ++ (if fr.isEmpty then "0" else (⟨fr⟩ : String))

/-- Rendering with one decimal place, modelling Python `f"{x:.1f}"`.
(Python rounds the underlying binary float half-to-even; this model rounds
half-up, which agrees everywhere except at exact halves of a tenth — no claim
depends on that tie.) -/
def fmtOneDec (x : ℚ) : String :=
  let scaled : Int := Rat.floor (10 * x + 1 / 2)
  toString (Int.fdiv scaled 10) ++ "." ++ toString (Int.emod scaled 10)

/-- Zero-pad to two digits (`strftime` `%m` / `%d`). -/
def pad2 (n : Int) : String := if n < 10 then "0" ++ toString n else toString n

/-- Zero-pad to four digits (`strftime` `%Y`). -/
def pad4 (n : Int) : String :=
  if n < 10 then "000" ++ toString n
  else if n < 100 then "00" ++ toString n
  else if n < 1000 then "0" ++ toString n
  else toString n

/-- Civil date from a day count relative to 1970-01-01 (standard
days-to-civil algorithm, proleptic Gregorian). -/
def civilFromDays (z0 : Int) : Int × Int × Int :=
  let z := z0 + 719468
  let era := Int.fdiv z 146097
  let doe := z - era * 146097
  let yoe := Int.fdiv (doe - Int.fdiv doe 1460 + Int.fdiv doe 36524 - Int.fdiv doe 146096) 365
  let y := yoe + era * 400
  let doy := doe - (365 * yoe + Int.fdiv yoe 4 - Int.fdiv yoe 100)
  let mp := Int.fdiv (5 * doy + 2) 153
  let d := doy - Int.fdiv (153 * mp + 2) 5 + 1
  let m := mp + (if mp < 10 then 3 else -9)
  (y + (if m ≤ 2 then 1 else 0), m, d)

/-- Model of `datetime.fromtimestamp(t).strftime("%Y-%m-%d")`, rendered in UTC
(the Python call uses the local timezone; no claim inspects the digits). -/
def dateStr (t : Int) : String :=
  match civilFromDays (Int.fdiv t 86400) with
  | (y, m, d) => pad4 y ++ "-" ++ pad2 m ++ "-" ++ pad2 d

/-! ## `google_places.py`: review model, normalizer, sort policy -/

/-- Model of `google_places.Review` (pydantic): `rating: int` constrained to `[1,5]`,
`text: str` (no non-emptiness constraint), optional `time` and
`relative_time_description`. -/
structure GReview where
  rating : Int
  text : String
  time : Option Int := none
  relative_time_description : Option String := none
deriving DecidableEq, Repr

/-- Model of `google_places.PlaceDetails`. -/
structure GPlaceDetails where
  place_id : String
  name : String
  address : Option String := none
  rating : Option ℚ := none
  total_reviews : Option Int := none
  reviews : List GReview := []
deriving DecidableEq, Repr

/-- A raw Google review record (the JSON dict), with the fields the parser
reads; field values are assumed well-typed as in the upstream schema. -/
structure GRawReview where
  rating : Option Int := none
  text : Option String := none
  time : Option Int := none
  relative_time_description : Option String := none
deriving DecidableEq, Repr

/-- One step of `GooglePlacesClient._parse_reviews`: build the pydantic
`Review` from `review_data.get(...)` defaults; a validation failure
(rating outside `[1,5]` after the `get("rating", 0)` default) skips the
record.  Note that an absent/empty `text` field is accepted as `""`. -/
def gParseOne (raw : GRawReview) : Option GReview :=
  let rating := raw.rating.getD 0
  if 1 ≤ rating ∧ rating ≤ 5 then
    some { rating := rating
           text := raw.text.getD ""
           time := raw.time
           relative_time_description := raw.relative_time_description }
  else none

/-- Model of `GooglePlacesClient._parse_reviews`. -/
def gParseReviews (raws : List GRawReview) : List GReview := raws.filterMap gParseOne

/-- Stable insertion of `a` into an already stably-descending list:
`a` goes before the first element with a strictly smaller key, i.e. after
every earlier element whose key is `≥ key a`. -/
def insertDescBy {α : Type} (key : α → Int) (a : α) : List α → List α
  | [] => [a]
  | b :: bs => if key b < key a then a :: b :: bs else b :: insertDescBy key a bs

/-- Stable descending sort by an integer key — the semantics of Python
`sorted(l, key=key, reverse=True)` (documented stable; equal keys keep the
original order). -/
def stableSortDescBy {α : Type} (key : α → Int) (l : List α) : List α :=
  l.foldl (fun acc a => insertDescBy key a acc) []

/-- Model of `GooglePlacesClient._sort_reviews_by_latest`: one stable descending sort,
a missing timestamp keyed as `0`. -/
def gSortReviewsByLatest (reviews : List GReview) : List GReview :=
  if reviews = [] then []
  else stableSortDescBy (fun r => r.time.getD 0) reviews

/-! ## `tripadvisor.py`: review model, normalizer, sort policy -/

/-- Model of `tripadvisor.Review` (pydantic): optional `rating` constrained to `[1,5]`
when present, `text: str`, optional `time` and `relative_time_description`. -/
structure TAReview where
  rating : Option ℚ := none
  text : String
  time : Option Int := none
  relative_time_description : Option String := none
deriving DecidableEq, Repr

/-- Model of `tripadvisor.PlaceDetails`. -/
structure TAPlaceDetails where
  location_id : String
  name : String
  address : Option String := none
  rating : Option ℚ := none
  total_reviews : Option Int := none
  reviews : List TAReview := []
deriving DecidableEq, Repr

/-- A raw TripAdvisor review record, with the fields the parser reads.
`rating_bubble` abstracts the numeric value of the first whitespace-token of
the `"rating_bubble"` string when that token parses as a float;
`published_date` abstracts the unix timestamp obtained from the
`"published_date"` field when it is numeric or a recognized ISO string. -/
structure TARawReview where
  rating : Option ℚ := none
  rating_bubble : Option ℚ := none
  text : Option String := none
  review_text : Option String := none
  review : Option String := none
  published_date : Option Int := none
  relative_time_description : Option String := none
  published_date_string : Option String := none
deriving DecidableEq, Repr

/-- Python `a or b or ""` on strings (empty string is falsy). -/
def pyOrStr3 (a b c : String) : String :=
  if a ≠ "" then a else if b ≠ "" then b else if c ≠ "" then c else ""

/-- Python `a or b or None` on optional strings. -/
def pyOrOptStr (a b : Option String) : Option String :=
  match a with
  | some s => if s ≠ "" then some s else
      match b with
      | some t => if t ≠ "" then some t else none
      | none => none
  | none =>
      match b with
      | some t => if t ≠ "" then some t else none
      | none => none

/-- One step of `TripAdvisorClient._parse_reviews`: resolve the rating from
`"rating"` then `"rating_bubble"`, the text from the ordered fallback
`"text"`/`"review_text"`/`"review"`, keep the record only when the text is
non-empty, and skip it when pydantic validation fails (rating outside
`[1,5]`). -/
def taParseOne (raw : TARawReview) : Option TAReview :=
  let rating : Option ℚ :=
    match raw.rating with
    | some v => some v
    | none => raw.rating_bubble
  let text := pyOrStr3 (raw.text.getD "") (raw.review_text.getD "") (raw.review.getD "")
  let rtd := pyOrOptStr raw.relative_time_description raw.published_date_string
  if text ≠ "" then
    match rating with
    | some v =>
        if 1 ≤ v ∧ v ≤ 5 then
          some { rating := some v, text := text, time := raw.published_date
                 relative_time_description := rtd }
        else none
    | none =>
        some { rating := none, text := text, time := raw.published_date
               relative_time_description := rtd }
  else none

/-- Model of `TripAdvisorClient._parse_reviews`. -/
def taParseReviews (raws : List TARawReview) : List TAReview := raws.filterMap taParseOne

/-- Model of `TripAdvisorClient._sort_reviews_by_latest`: partition into timestamped and
untimestamped reviews, stably sort the first partition descending by
timestamp, and append the second partition in original order. -/
def taSortReviewsByLatest (reviews : List TAReview) : List TAReview :=
  if reviews = [] then []
  else
    let withTime := reviews.filter (fun r => r.time.isSome)
    let withoutTime := reviews.filter (fun r => r.time.isNone)
    stableSortDescBy (fun r => r.time.getD 0) withTime ++ withoutTime

/-! ## `place_reviews_tool.py`: provider oracles and the formatter -/

/-- Outcome of one call to `get_place_reviews` (Google Places), as dispatched
by the tool's two `except` clauses: success, a `ValueError`, or any other
exception, the latter two carrying `str(e)`. -/
inductive GOutcome where
  | ok (d : GPlaceDetails)
  | valueErr (msg : String)
  | exc (msg : String)
deriving DecidableEq, Repr

/-- Outcome of one call to `get_location_reviews` (TripAdvisor): success or an
exception (the tool catches all TripAdvisor exceptions uniformly). -/
inductive TAOutcome where
  | ok (d : TAPlaceDetails)
  | exc (msg : String)
deriving DecidableEq, Repr

/-- A Google Places adapter behaviour: the tool invokes it with the single
query string (`get_place_reviews(place_name)`, line 131). -/
abbrev GOracle := String → GOutcome

/-- A TripAdvisor adapter behaviour: invoked with `(query, location)`
(`limit_reviews=5` and `language="en"` are fixed by the tool). -/
abbrev TAOracle := String → Option String → TAOutcome

/-- The duck-typed review record consumed by `_format_place_reviews_output`
(fields `rating`, `text`, `time`, `relative_time_description`). -/
structure ToolReview where
  rating : Option ℚ
  text : String
  time : Option Int
  relative_time_description : Option String
deriving DecidableEq, Repr

/-- A Google review as seen by the formatter: `rating` is a required `int`
(rendered here via `ℚ`, which prints `5` as `5.0`; no claim inspects these
digits). -/
def GReview.toTool (r : GReview) : ToolReview :=
  ⟨some (r.rating : ℚ), r.text, r.time, r.relative_time_description⟩

/-- A TripAdvisor review as seen by the formatter. -/
def TAReview.toTool (r : TAReview) : ToolReview :=
  ⟨r.rating, r.text, r.time, r.relative_time_description⟩

/-- Python string repetition `c * n` for a single character. -/
def pyRepeat (c : Char) (n : Nat) : String := ⟨List.replicate n c⟩

/-- The string of 60 equals signs (Python `'=' * 60`). -/
def eqLine : String := pyRepeat '=' 60

/-- The newline followed by 60 equals signs that opens every block. -/
def nlEqLine : String := "\n" ++ eqLine

/-- The string of 60 dashes (Python `'-' * 60`). -/
def dashLine : String := pyRepeat '-' 60

/-- One iteration of the review loop in `_format_place_reviews_output`
(lines 64–77), with the 1-based index `i`. -/
def reviewItem (i : Nat) (r : ToolReview) : String :=
  "\nReview " ++ toString i ++ ":\n"
  ++ (match r.rating with
      | some q => "  Rating: " ++ decStr q ++ "/5.0\n"
      | none => "")
  ++ "  Review Text: " ++ r.text ++ "\n"
  ++ (match r.time with
      | some t => if t ≠ 0 then "  Date: " ++ dateStr t ++ "\n" else ""
      | none => "")
  ++ (match r.relative_time_description with
      | some s => if s ≠ "" then "  Posted: " ++ s ++ "\n" else ""
      | none => "")

/-- The review loop of `_format_place_reviews_output`, enumerating from `i`. -/
def reviewItemsFrom (i : Nat) : List ToolReview → String
  | [] => ""
  | r :: rs => reviewItem i r ++ reviewItemsFrom (i + 1) rs

/-- Model of `_format_place_reviews_output` (lines 16–80). -/
def formatPlaceReviewsOutput (source place_name : String) (address : Option String)
    (rating : Option ℚ) (total_reviews : Option Int) (reviews : List ToolReview)
    (error : Option String) : String :=
  let head := nlEqLine ++ "\n" ++ "Source: " ++ source ++ "\n"
  match error with
  | some e => head ++ "Status: ERROR - " ++ e ++ "\n" ++ eqLine ++ "\n"
  | none =>
    let out := head
      ++ (match address with
          | some a => if a ≠ "" then "📍 ADDRESS: " ++ a ++ "\n" ++ dashLine ++ "\n" else ""
          | none => "")
      ++ "Place Name: " ++ place_name ++ "\n"
      ++ (match rating with
          | some r => "Overall Rating: " ++ decStr r ++ "/5.0\n"
          | none => "")
      ++ (match total_reviews with
          | some t => "Total Reviews: " ++ toString t ++ "\n"
          | none => "")
    let out := out
      ++ (if reviews = [] then "Reviews: No reviews available\n"
          else "\nReviews (" ++ toString reviews.length ++ " latest):\n" ++ dashLine ++ "\n"
               ++ reviewItemsFrom 1 reviews)
    out ++ "\n" ++ eqLine ++ "\n"

/-! ## The place reconciler (lines 329–419) -/

/-- The three fields the tool stores per provider
(`{"name": ..., "address": ..., "rating": ...}`). -/
structure PlaceTriple where
  name : String
  address : Option String := none
  rating : Option ℚ := none
deriving DecidableEq, Repr

/-- Model of `normalize_address` (lines 336–348). -/
def normalizeAddress (addr : String) : String :=
  let n := pyLower addr
  let n := pyReplace n " street" " st"
  let n := pyReplace n " avenue" " ave"
  let n := pyReplace n " road" " rd"
  let n := pyReplace n " boulevard" " blvd"
  let n := String.intercalate " " (pyWords n)
  let n := pyReplace (pyReplace n "." "") "," ""
  pyStrip n

/-- Model of `extract_street_info` (lines 354–370): `(street_number, street_name)`;
`("", _)` when the first token before the first comma is not numeric. -/
def extractStreetInfo (addr : String) : String × String :=
  if addr = "" then ("", "")
  else
    let parts := pySplitOn addr ','
    let streetPart := match parts with
      | [] => ""
      | p :: _ => pyStrip p
    let words := pyWords streetPart
    match words with
    | [] => ("", pyLower streetPart)
    | w :: rest =>
      if pyIsDigit w then
        let name := pyLower (String.intercalate " " rest)
        let name := pyReplace name " street" ""
        let name := pyReplace name " st" ""
        let name := pyReplace name " avenue" ""
        let name := pyReplace name " ave" ""
        let name := pyReplace name " road" ""
        let name := pyReplace name " rd" ""
        (w, pyStrip name)
      else ("", pyLower streetPart)

/-- The address-comparison block (lines 350–399), on the already-lowercased
address strings: primary rule on equal street numbers with a shared
street-name word longer than 2 characters, secondary rule on at least two
shared normalized-address words longer than 3 characters outside the
stopword set. -/
def addressesMatch (gaddr taddr : String) : Bool :=
  let gaN := if gaddr ≠ "" then normalizeAddress gaddr else ""
  let taN := if taddr ≠ "" then normalizeAddress taddr else ""
  let gs := extractStreetInfo gaddr
  let ts := extractStreetInfo taddr
  if gs.1 ≠ "" ∧ ts.1 ≠ "" then
    if gs.1 = ts.1 then
      let common := ((pyWords gs.2).filter (fun w => w ∈ pyWords ts.2)).filter
        (fun w => 2 < w.length)
      !common.isEmpty
    else false
  else if gaN ≠ "" ∧ taN ≠ "" then
    let common := ((dedupFirst (pyWords gaN)).filter (fun w => w ∈ pyWords taN)).filter
      (fun w => 3 < w.length ∧ w ∉ (["the", "and", "at"] : List String))
    2 ≤ common.length
  else false

/-- The full place-identity decision (lines 330–419) for the case where both
providers returned data: address match first, then the shared-name-words
fallback; `places_match` stays `True` when either test passes. -/
def placesMatchBoth (g t : PlaceTriple) : Bool :=
  let gaddr := pyLower (g.address.getD "")
  let taddr := pyLower (t.address.getD "")
  if addressesMatch gaddr taddr then true
  else
    let gname := pyStrip (pyLower g.name)
    let tname := pyStrip (pyLower t.name)
    let gw := (pyWords gname).filter (fun w => 3 < w.length)
    let tw := (pyWords tname).filter (fun w => 3 < w.length)
    let common := (dedupFirst gw).filter (fun w => w ∈ tw)
    2 ≤ common.length

/-! ## The cross-provider search strategy (lines 111–326) -/

/-- The Google-phase explanation for a `ValueError` whose message mentions
"not found" (lines 153–162). -/
def gNotFoundExplanation (place_name : String) : String :=
  "The place '" ++ place_name ++ "' was not found in Google Places. "
  ++ "Possible reasons:\n"
  ++ "1. The place name might be misspelled or incomplete\n"
  ++ "2. The location context might be too specific or incorrect\n"
  ++ "3. Try providing a more general location (e.g., 'Paris' instead of '123 Main St, Paris')\n"
  ++ "4. Try a more complete place name (e.g., 'Eiffel Tower' instead of just 'Eiffel')\n"
  ++ "5. The place might not exist in Google Places database"

/-- The TripAdvisor explanation used when no attempt produced data
(lines 310–316). -/
def taNotFoundExplanation : String :=
  "The place could not be found in TripAdvisor after trying multiple search strategies. "
  ++ "This might mean:\n"
  ++ "1. The place doesn't exist in TripAdvisor's database\n"
  ++ "2. The place name or location might need to be different on TripAdvisor\n"
  ++ "3. Try searching TripAdvisor directly with the place name"

/-- The Google phase of the tool (lines 128–187): call
`get_place_reviews(place_name)` and catch `ValueError` / `Exception`
separately, producing the stored place dict (when successful) and Google's
formatted output block.  The caller-supplied `location` is in scope at this
call site but the source passes only `place_name` to the adapter; the unused
`location` parameter records that. -/
def googlePhase (gp : GOracle) (place_name : String) (location : Option String) :
    Option PlaceTriple × String :=
  match gp place_name with
  | .ok d =>
    (some ⟨d.name, d.address, d.rating⟩,
     formatPlaceReviewsOutput "Google Places" d.name d.address d.rating d.total_reviews
       (d.reviews.map GReview.toTool) none)
  | .valueErr m =>
    let lowmsg := pyLower m
    let explanation :=
      if strContains lowmsg "not found" || strContains lowmsg "place not found" then
        gNotFoundExplanation place_name
      else "Google Places API error: " ++ m
    (none, formatPlaceReviewsOutput "Google Places" place_name none none none [] (some explanation))
  | .exc m =>
    (none, formatPlaceReviewsOutput "Google Places" place_name none none none []
      (some ("Unexpected error with Google Places API: " ++ m)))

/-- The ordered list of TripAdvisor location candidates (lines 199–227) built
from Google's address when it has at least two comma-separated parts:
`"city, country"` (last two parts), then the city part alone, then the
caller-supplied location when truthy — deduplicated keeping first
occurrences. -/
def attemptListOf (address : String) (location : Option String) : List String :=
  let parts := (pySplitOn address ',').map pyStrip
  if 2 ≤ parts.length then
    let last := parts.getD (parts.length - 1) ""
    let prev := parts.getD (parts.length - 2) ""
    dedupFirst ([prev ++ ", " ++ last, prev]
      ++ (if optStrTruthy location then [location.getD ""] else []))
  else []

/-- Result of the TripAdvisor phase: data (or `none` after a caught failure),
or an exception escaping the per-provider handling (`raise`, line 253). -/
inductive TAPhaseResult where
  | got (d : Option TAPlaceDetails)
  | escalate (msg : String)
deriving DecidableEq, Repr

/-- Whether the TripAdvisor phase ended in the re-raised exception. -/
def TAPhaseResult.isEscalate : TAPhaseResult → Bool
  | .escalate _ => true
  | .got _ => false

/-- The candidate loop (lines 232–254): try each location candidate in order,
stopping at the first success; a failure on a non-final candidate continues,
a failure on the final candidate re-raises (`raise`, line 253). -/
def runAttempts (ta : TAOracle) (query : String) : List String → TAPhaseResult
  | [] => .got none
  | [l] =>
    match ta query (some l) with
    | .ok d => .got (some d)
    | .exc m => .escalate m
  | l :: l' :: ls =>
    match ta query (some l) with
    | .ok d => .got (some d)
    | .exc _ => runAttempts ta query (l' :: ls)

/-- A fallback call (lines 255–272 and 274–291): one attempt, any exception
caught and turned into `None`. -/
def taFallback (ta : TAOracle) (query : String) (location : Option String) :
    Option TAPlaceDetails :=
  match ta query location with
  | .ok d => some d
  | .exc _ => none

/-- The TripAdvisor phase (lines 189–291): when Google produced a truthy
address with at least two comma-separated parts, run the candidate loop with
Google's place name as the query; otherwise fall back to a single caught
attempt (with Google's name when Google succeeded, else the original
`place_name`). -/
def taPhase (ta : TAOracle) (place_name : String) (location : Option String)
    (gpd : Option PlaceTriple) : TAPhaseResult :=
  match gpd with
  | some g =>
    match g.address with
    | some addr =>
      if addr ≠ "" then
        let parts := (pySplitOn addr ',').map pyStrip
        if 2 ≤ parts.length then runAttempts ta g.name (attemptListOf addr location)
        else .got (taFallback ta g.name location)
      else .got (taFallback ta place_name location)
    | none => .got (taFallback ta place_name location)
  | none => .got (taFallback ta place_name location)

/-! ## The combined output (lines 421–487), as the list of appended pieces -/

/-- Python f-string rendering of an `Optional[str]`: interpolating `None` prints the text None. -/
def pyShowOptStr : Option String → String
  | some s => s
  | none => "None"

/-- The expression on lines 442–443: the address string, or the fallback text when the address is falsy. -/
def orAddrUnavailable (a : Option String) : String :=
  match a with
  | some s => if s ≠ "" then s else "Address not available"
  | none => "Address not available"

/-- The header block (lines 431–436). -/
def headerPiece (place_name : String) (location : Option String) : String :=
  "\nPLACE REVIEWS SUMMARY\n" ++ eqLine ++ "\n"
  ++ "Search Query: " ++ place_name
  ++ (if optStrTruthy location then " (in " ++ location.getD "" ++ ")" else "")
  ++ "\n" ++ eqLine ++ "\n"

/-- The different-places warning block (lines 440–445). -/
def warningPiece (gpd tpd : Option PlaceTriple) : String :=
  "\n⚠️ WARNING: DIFFERENT PLACES FOUND\n"
  ++ "Google Places and TripAdvisor returned different locations:\n"
  ++ "  • Google Places: " ++ pyShowOptStr (gpd.map (·.name)) ++ " at "
  ++ orAddrUnavailable (gpd.bind (·.address)) ++ "\n"
  ++ "  • TripAdvisor: " ++ pyShowOptStr (tpd.map (·.name)) ++ " at "
  ++ orAddrUnavailable (tpd.bind (·.address)) ++ "\n"
  ++ "Please note these are DIFFERENT places. Provide information separately and ask the user which one they want details about.\n"
  ++ dashLine ++ "\n\n"

/-- One provider's sub-block of the location-information section
(lines 449–460), emitted only when both the name and the address are truthy. -/
def locationInfoEntry (label : String) (t : Option PlaceTriple) : String :=
  match t with
  | none => ""
  | some p =>
    match p.address with
    | none => ""
    | some a =>
      if p.name ≠ "" ∧ a ≠ "" then
        "  📍 " ++ label ++ ":\n"
        ++ "     Name: " ++ p.name ++ "\n"
        ++ "     Address: " ++ a ++ "\n"
        ++ (match p.rating with
            | some r => "     Rating: " ++ decStr r ++ "/5.0\n"
            | none => "")
      else ""

/-- The location-information block (lines 448–460). -/
def locationInfoPiece (gpd tpd : Option PlaceTriple) : String :=
  "\n📍 LOCATION INFORMATION:\n"
  ++ locationInfoEntry "Google Places" gpd
  ++ locationInfoEntry "TripAdvisor" tpd

/-- The averaged-rating line (lines 463–465). -/
def avgRatingPiece (g t : ℚ) : String :=
  "  • Average Rating: " ++ fmtOneDec ((g + t) / 2) ++ "/5.0\n"

/-- The separator between the summary header section and the per-provider
blocks (line 467). -/
def sepPiece : String := "\n" ++ dashLine ++ "\n\n"

/-- The closing summary block (lines 474–485). -/
def summaryPiece (places_match : Bool) : String :=
  nlEqLine ++ "\n"
  ++ "SUMMARY:\n"
  ++ "This tool searched for reviews from both Google Places and TripAdvisor.\n"
  ++ (if !places_match then
        "⚠️ IMPORTANT: Different places were found. Clearly indicate this to the user and separate the information for each place.\n"
        ++ "IMPORTANT: Ask the user which place they're interested in, or if they want details about both.\n"
      else
        "The address(es) and ratings shown above indicate the location found.\n")
  ++ "If either API returned an error, see the error explanation above.\n"
  ++ "If no reviews were found, the place might not exist or have reviews.\n"
  ++ "You can suggest the user try a different place name or location.\n"
  ++ eqLine ++ "\n"

/-- The pieces contributed by lines 463–465: the averaged-rating line exactly
when `places_match` holds and both ratings are present. -/
def avgPieceList (places_match : Bool) (grating trating : Option ℚ) : List String :=
  match places_match, grating, trating with
  | true, some gr, some tr => [avgRatingPiece gr tr]
  | _, _, _ => []

/-- The list of pieces appended (`combined_output += ...`) to build the
combined output (lines 430–485), in source order. -/
def combinedPieces (place_name : String) (location : Option String)
    (gpd tpd : Option PlaceTriple) (gOut tOut : String) (places_match : Bool) :
    List String :=
  [headerPiece place_name location]
  ++ (if !places_match && gpd.isSome && tpd.isSome then [warningPiece gpd tpd] else [])
  ++ [locationInfoPiece gpd tpd]
  ++ avgPieceList places_match (gpd.bind (·.rating)) (tpd.bind (·.rating))
  ++ [sepPiece, gOut, "\n", tOut, summaryPiece places_match]

/-- The validation error string returned for an invalid `place_name`
(lines 113–116). -/
def invalidPlaceNameMsg : String :=
  "ERROR: Invalid place_name. Please provide a non-empty string with the name of the place. Example: 'Eiffel Tower' or 'Central Park'"

/-- The top-level catch-all error string (lines 489–492). -/
def topLevelErrorMsg (m : String) : String :=
  "ERROR: Unexpected error in get_place_reviews_from_apis: " ++ m
  ++ ". Please try again with a different place name or location."

/-- Model of `get_place_reviews_from_apis`, split into its outcome: `.error` is a path
that returns an error string directly (invalid `place_name`, or the
TripAdvisor candidate-loop exception reaching the top-level handler), `.ok`
is the list of pieces of the combined output.  A `place_name` of `none`
models Python `None` (non-string arguments take the same validation branch). -/
def runOutcome (gp : GOracle) (ta : TAOracle) (place_name : Option String)
    (location : Option String) : Except String (List String) :=
  match place_name with
  | none => .error invalidPlaceNameMsg
  | some pn0 =>
    if pyStrip pn0 = "" then .error invalidPlaceNameMsg
    else
      let pn := pyStrip pn0
      let gres := googlePhase gp pn location
      let gpd := gres.1
      let gOut := gres.2
      match taPhase ta pn location gpd with
      | .escalate m => .error (topLevelErrorMsg m)
      | .got tadata =>
        let tOut :=
          match tadata with
          | some d =>
            formatPlaceReviewsOutput "TripAdvisor" d.name d.address d.rating d.total_reviews
              (d.reviews.map TAReview.toTool) none
          | none =>
            formatPlaceReviewsOutput "TripAdvisor" pn none none none []
              (some taNotFoundExplanation)
        let tpd := tadata.map (fun d => PlaceTriple.mk d.name d.address d.rating)
        let pm :=
          match gpd, tpd with
          | some g, some t => placesMatchBoth g t
          | _, _ => true
        .ok (combinedPieces pn location gpd tpd gOut tOut pm)

/-- Model of `get_place_reviews_from_apis` (lines 84–492): the single string returned
to the tool-execution layer. -/
def getPlaceReviewsFromApis (gp : GOracle) (ta : TAOracle) (place_name : Option String)
    (location : Option String) : String :=
  match runOutcome gp ta place_name location with
  | .error s => s
  | .ok pieces => concatPieces pieces

/-! ## Output-piece markers -/

/-- The leading text of the averaged-rating line. -/
def avgMarker : String := "  • Average Rating:"

/-- Whether a piece is the averaged-rating line. -/
def isAvgLine (s : String) : Bool := avgMarker.data.isPrefixOf s.data

/-- The leading text of the different-places warning block. -/
def warnMarker : String := "\n⚠️ WARNING: DIFFERENT PLACES"

/-- Whether a piece is the different-places warning block. -/
def isWarnBlock (s : String) : Bool := warnMarker.data.isPrefixOf s.data

/-- Returns `true` when the two lists disagree at some position inside their common
length — in which case neither extends a list beginning with the other. -/
def charsClash : List Char → List Char → Bool
  | a :: as, b :: bs => a ≠ b || charsClash as bs
  | _, _ => false

/-! ## Concrete instances used by witnesses and counterexamples -/

/-- A Google result for the Eiffel Tower (address with four comma-separated
parts). -/
def eiffelDetails : GPlaceDetails :=
  { place_id := "gp-eiffel", name := "Eiffel Tower"
    address := some "Champ de Mars, 5 Av. Anatole France, 75007 Paris, France"
    rating := some (47/10), total_reviews := some 120000 }

/-- A Google oracle that always succeeds with `eiffelDetails`. -/
def gOracleEiffel : GOracle := fun _ => .ok eiffelDetails

/-- A TripAdvisor oracle that raises on every attempt. -/
def taOracleBoom : TAOracle := fun _ _ => .exc "boom"

/-- A Google result for the Louvre (address with three comma-separated parts). -/
def louvreDetails : GPlaceDetails :=
  { place_id := "gp-louvre", name := "Louvre Museum"
    address := some "Rue de Rivoli, 75001 Paris, France"
    rating := some (47/10), total_reviews := some 90000 }

/-- A Google oracle that always succeeds with `louvreDetails`. -/
def gOracleLouvre : GOracle := fun _ => .ok louvreDetails

/-- A TripAdvisor oracle that times out on every attempt. -/
def taOracleTimeout : TAOracle := fun _ _ => .exc "Request timed out"

/-- A Google oracle that reports not-found for every query. -/
def gOracleNotFound : GOracle := fun _ => .valueErr "Place not found for query: x"

/-- A Google oracle that records its query in a `ValueError` message. -/
def gOracleRecord : GOracle := fun q => .valueErr q

/-- A Google oracle agreeing with `gOracleRecord` at `"Eiffel Tower"` only. -/
def gOracleRecordAlt : GOracle := fun q =>
  if q = "Eiffel Tower" then .valueErr q else .exc "other"

/-- A TripAdvisor result used by the candidate-loop witness. -/
def taLondonDetails : TAPlaceDetails :=
  { location_id := "ta-221b", name := "Sherlock Holmes Museum"
    address := some "221B Baker St, London, UK", rating := some 4 }

/-- A TripAdvisor oracle succeeding exactly at the location `"London"`. -/
def taOracleLondon : TAOracle := fun _ l =>
  if l = some "London" then .ok taLondonDetails else .exc "fail"

/-- Provider triples for the Hayarkon address example. -/
def hayarkonG : PlaceTriple :=
  { name := "Hotel A", address := some "19 Hayarkon St, Tel Aviv, Israel", rating := some 4 }

/-- The TripAdvisor-side Hayarkon triple. -/
def hayarkonT : PlaceTriple :=
  { name := "Hotel B", address := some "19 Hayarkon Street, Tel Aviv-Yafo, Israel"
    rating := some (9/2) }

/-- Eiffel Tower triples with matching addresses, for the output-count witness. -/
def eiffelGTriple : PlaceTriple :=
  { name := "Eiffel Tower", address := some "5 Avenue Anatole France, 75007 Paris, France"
    rating := some (47/10) }

/-- The TripAdvisor-side Eiffel triple (same street number and street words). -/
def eiffelTTriple : PlaceTriple :=
  { name := "Eiffel Tower", address := some "5 Avenue Anatole France, Paris 75007, France"
    rating := some (45/10) }

/-- A Google raw review with a rating but no text field. -/
def gRawNoText : GRawReview := { rating := some 5 }

/-- A TripAdvisor raw review with a text and an in-range rating. -/
def taRawGood : TARawReview := { rating := some 4, text := some "Great place" }

/-- The five reviews of the sort example, Google-shaped: timestamps
`[5, null, 10, null, 1]`. -/
def gSortInput : List GReview :=
  [ { rating := 5, text := "r1", time := some 5 }
  , { rating := 4, text := "r2", time := none }
  , { rating := 3, text := "r3", time := some 10 }
  , { rating := 2, text := "r4", time := none }
  , { rating := 1, text := "r5", time := some 1 } ]

/-- The same five reviews, TripAdvisor-shaped. -/
def taSortInput : List TAReview :=
  [ { rating := some 5, text := "r1", time := some 5 }
  , { rating := some 4, text := "r2", time := none }
  , { rating := some 3, text := "r3", time := some 10 }
  , { rating := some 2, text := "r4", time := none }
  , { rating := some 1, text := "r5", time := some 1 } ]

/-- A string starting with the fixed block head `"\n" ++ "=" * 60` — the shape
of every string produced by `_format_place_reviews_output`. -/
def hasBlockHead (s : String) : Prop := s.data.take 61 = nlEqLine.data

/-! # Infrastructure lemmas -/

theorem isPrefixOf_eq_false_of_clash :
    ∀ (p l r : List Char), charsClash p l = true → p.isPrefixOf (l ++ r) = false
  | a :: as, b :: bs, r, h => by
    simp only [charsClash, Bool.or_eq_true, decide_eq_true_eq] at h
    rw [List.cons_append]
    by_cases hab : a = b
    · subst hab
      have ih := isPrefixOf_eq_false_of_clash as bs r
        (h.resolve_left (fun hc => hc rfl))
      simp [List.isPrefixOf, ih]
    · simp [List.isPrefixOf, hab]

theorem isPrefixOf_append_left (p l r : List Char) (h : p.isPrefixOf l = true) :
    p.isPrefixOf (l ++ r) = true :=
  List.isPrefixOf_iff_prefix.2 ((List.isPrefixOf_iff_prefix.1 h).trans (List.prefix_append l r))

theorem containsChars_correct : ∀ (pat l : List Char), containsChars pat l = true ↔ pat <:+: l
  | pat, [] => by
    simp [containsChars, List.isPrefixOf_iff_prefix, List.infix_nil, List.prefix_nil]
  | pat, c :: cs => by
    simp only [containsChars, Bool.or_eq_true, List.isPrefixOf_iff_prefix,
      containsChars_correct pat cs, List.infix_cons_iff]

theorem strContains_of_data {s pat : String} (h : pat.data <:+: s.data) :
    strContains s pat = true :=
  (containsChars_correct _ _).2 h

theorem infix_append_right_of {p r : List Char} (l : List Char) (h : p <:+: r) :
    p <:+: l ++ r :=
  h.trans (List.suffix_append l r).isInfix

theorem infix_append_left_of {p l : List Char} (r : List Char) (h : p <:+: l) :
    p <:+: l ++ r :=
  h.trans (List.prefix_append l r).isInfix

theorem data_concatPieces_cons (p : String) (ps : List String) :
    (concatPieces (p :: ps)).data = p.data ++ (concatPieces ps).data :=
  String.data_append _ _

theorem hasBlockHead_iff {s : String} :
    hasBlockHead s ↔ ∃ r, s.data = nlEqLine.data ++ r := by
  constructor
  · intro h
    exact ⟨s.data.drop 61, by rw [← h, List.take_append_drop]⟩
  · rintro ⟨r, hr⟩
    have hlen : (61 : Nat) = nlEqLine.data.length := by decide
    unfold hasBlockHead
    rw [hr, hlen, List.take_left]

/-! ### Which pieces the output markers select -/

theorem isAvgLine_headerPiece (pn : String) (loc : Option String) :
    isAvgLine (headerPiece pn loc) = false := by
  unfold isAvgLine headerPiece
  simp only [String.data_append, List.append_assoc]
  exact isPrefixOf_eq_false_of_clash _ _ _ (by decide)

theorem isWarnBlock_headerPiece (pn : String) (loc : Option String) :
    isWarnBlock (headerPiece pn loc) = false := by
  unfold isWarnBlock headerPiece
  simp only [String.data_append, List.append_assoc]
  exact isPrefixOf_eq_false_of_clash _ _ _ (by decide)

theorem isAvgLine_warningPiece (gpd tpd : Option PlaceTriple) :
    isAvgLine (warningPiece gpd tpd) = false := by
  unfold isAvgLine warningPiece
  simp only [String.data_append, List.append_assoc]
  exact isPrefixOf_eq_false_of_clash _ _ _ (by decide)

theorem isWarnBlock_warningPiece (gpd tpd : Option PlaceTriple) :
    isWarnBlock (warningPiece gpd tpd) = true := by
  unfold isWarnBlock warningPiece
  simp only [String.data_append, List.append_assoc]
  exact isPrefixOf_append_left _ _ _ (by decide)

theorem isAvgLine_locationInfoPiece (gpd tpd : Option PlaceTriple) :
    isAvgLine (locationInfoPiece gpd tpd) = false := by
  unfold isAvgLine locationInfoPiece
  simp only [String.data_append, List.append_assoc]
  exact isPrefixOf_eq_false_of_clash _ _ _ (by decide)

theorem isWarnBlock_locationInfoPiece (gpd tpd : Option PlaceTriple) :
    isWarnBlock (locationInfoPiece gpd tpd) = false := by
  unfold isWarnBlock locationInfoPiece
  simp only [String.data_append, List.append_assoc]
  exact isPrefixOf_eq_false_of_clash _ _ _ (by decide)

theorem isAvgLine_avgRatingPiece (g t : ℚ) : isAvgLine (avgRatingPiece g t) = true := by
  unfold isAvgLine avgRatingPiece
  simp only [String.data_append, List.append_assoc]
  exact isPrefixOf_append_left _ _ _ (by decide)

theorem isWarnBlock_avgRatingPiece (g t : ℚ) : isWarnBlock (avgRatingPiece g t) = false := by
  unfold isWarnBlock avgRatingPiece
  simp only [String.data_append, List.append_assoc]
  exact isPrefixOf_eq_false_of_clash _ _ _ (by decide)

theorem isAvgLine_sepPiece : isAvgLine sepPiece = false := by decide

theorem isWarnBlock_sepPiece : isWarnBlock sepPiece = false := by decide

theorem isAvgLine_newline : isAvgLine "\n" = false := by decide

theorem isWarnBlock_newline : isWarnBlock "\n" = false := by decide

theorem isAvgLine_summaryPiece (pm : Bool) : isAvgLine (summaryPiece pm) = false := by
  unfold isAvgLine summaryPiece
  simp only [String.data_append, List.append_assoc]
  exact isPrefixOf_eq_false_of_clash _ _ _ (by decide)

theorem isWarnBlock_summaryPiece (pm : Bool) : isWarnBlock (summaryPiece pm) = false := by
  unfold isWarnBlock summaryPiece
  simp only [String.data_append, List.append_assoc]
  exact isPrefixOf_eq_false_of_clash _ _ _ (by decide)

theorem isAvgLine_of_blockHead {s : String} (h : hasBlockHead s) : isAvgLine s = false := by
  obtain ⟨r, hr⟩ := hasBlockHead_iff.1 h
  unfold isAvgLine
  rw [hr]
  exact isPrefixOf_eq_false_of_clash _ _ _ (by decide)

theorem isWarnBlock_of_blockHead {s : String} (h : hasBlockHead s) : isWarnBlock s = false := by
  obtain ⟨r, hr⟩ := hasBlockHead_iff.1 h
  unfold isWarnBlock
  rw [hr]
  exact isPrefixOf_eq_false_of_clash _ _ _ (by decide)

theorem formatOutput_hasBlockHead (source pname : String) (addr : Option String)
    (rating : Option ℚ) (total : Option Int) (reviews : List ToolReview)
    (error : Option String) :
    hasBlockHead (formatPlaceReviewsOutput source pname addr rating total reviews error) := by
  unfold hasBlockHead formatPlaceReviewsOutput
  have h61 : (61 : Nat) = nlEqLine.data.length := by decide
  cases error with
  | some e =>
    simp only [String.data_append, List.append_assoc]
    rw [h61, List.take_left]
  | none =>
    simp only [String.data_append, List.append_assoc]
    rw [h61, List.take_left]

/-! # Claim theorems -/

/-- C7: On the review sequence with timestamps `[5, null, 10, null, 1]`, the
Provider-A-style sort (one stable descending sort keying a missing timestamp
as `0`) and the Provider-B-style sort (partition, sort the timestamped
partition descending, append the untimestamped partition in original order)
both produce the order `[10, 5, 1, null, null]`, with the two null-timestamp
reviews keeping their relative input order, and the two sort policies agree
on this input. -/
theorem claim_C7 :
    gSortReviewsByLatest gSortInput
      = [ { rating := 3, text := "r3", time := some 10 }
        , { rating := 5, text := "r1", time := some 5 }
        , { rating := 1, text := "r5", time := some 1 }
        , { rating := 4, text := "r2", time := none }
        , { rating := 2, text := "r4", time := none } ]
    ∧ taSortReviewsByLatest taSortInput
      = [ { rating := some 3, text := "r3", time := some 10 }
        , { rating := some 5, text := "r1", time := some 5 }
        , { rating := some 1, text := "r5", time := some 1 }
        , { rating := some 4, text := "r2", time := none }
        , { rating := some 2, text := "r4", time := none } ]
    ∧ (gSortReviewsByLatest gSortInput).map (fun r => (r.time, r.text))
      = (taSortReviewsByLatest taSortInput).map (fun r => (r.time, r.text)) := by
  refine ⟨by decide, by decide, by decide⟩

/-- C2 (code behaviour at the failing input): when Google succeeds with a
multi-part address and every TripAdvisor candidate attempt raises, the
re-raise on the final attempt (line 253) escapes the per-provider handling
and reaches the top-level handler: the returned string is the generic
top-level error message, which contains neither Provider A's data nor the
TripAdvisor "not found after multiple attempts" ERROR block. -/
theorem claim_C2_code_behavior :
    getPlaceReviewsFromApis gOracleEiffel taOracleBoom (some "Eiffel Tower")
        (some "Paris, France")
      = topLevelErrorMsg "boom"
    ∧ strContains (topLevelErrorMsg "boom") "Eiffel Tower" = false
    ∧ strContains (topLevelErrorMsg "boom") "TripAdvisor" = false
    ∧ strContains (topLevelErrorMsg "boom") "multiple search" = false := by
  refine ⟨rfl, by decide, by decide, by decide⟩

/-- C1 (counterexample): a valid, non-whitespace `place_name` on which
`get_place_reviews_from_apis` returns a string that contains neither the
"PLACE REVIEWS SUMMARY" header nor the place name — Google succeeds with a
multi-part address and every TripAdvisor candidate attempt raises, so the
final-attempt re-raise reaches the top-level handler. -/
theorem claim_C1_counterexample :
    pyStrip "Louvre Museum" ≠ ""
    ∧ strContains (getPlaceReviewsFromApis gOracleLouvre taOracleTimeout
        (some "Louvre Museum") none) "PLACE REVIEWS SUMMARY" = false
    ∧ strContains (getPlaceReviewsFromApis gOracleLouvre taOracleTimeout
        (some "Louvre Museum") none) "Louvre Museum" = false := by
  refine ⟨by decide, by decide, by decide⟩

/-- C9 (counterexample): a raw Google review record carrying a rating but no
text survives `_parse_reviews` with `text = ""` — the Google normalizer does
not enforce non-empty review text. -/
theorem claim_C9_counterexample :
    ∃ r ∈ gParseReviews [gRawNoText], r.text = "" := by decide

/-- C3 (counterexample): at a concrete input, the Google phase — which embeds
the received query into its outcome via the recording oracle — is identical
whether the caller supplies the location hint "Paris, France" or no hint at
all: the hint is not part of Provider A's invocation and cannot narrow its
search. -/
theorem claim_C3_counterexample :
    googlePhase gOracleRecord "Eiffel Tower" (some "Paris, France")
      = googlePhase gOracleRecord "Eiffel Tower" none := rfl

/-- C8: for an empty or whitespace-only `place_name` (and for `None`,
which takes the same validation branch), the tool returns — for every
behaviour of the two provider oracles, i.e. without consulting either
provider — the fixed validation error string, which contains "ERROR". -/
theorem claim_C8 (gp : GOracle) (ta : TAOracle) (pn : Option String) (loc : Option String)
    (h : pn = none ∨ ∃ s, pn = some s ∧ pyStrip s = "") :
    getPlaceReviewsFromApis gp ta pn loc = invalidPlaceNameMsg
    ∧ strContains invalidPlaceNameMsg "ERROR" = true := by
  refine ⟨?_, by decide⟩
  rcases h with rfl | ⟨s, rfl, hs⟩
  · rfl
  · simp [getPlaceReviewsFromApis, runOutcome, hs]

/-- C10: the tool is total at its boundary — every run produces a string:
either the combined-output path joins the pieces, or an error path returns a
string that begins with "ERROR:" (the validation message, or the top-level
handler's rendering of the one exception that can reach it). -/
theorem claim_C10 (gp : GOracle) (ta : TAOracle) (pn : Option String) (loc : Option String) :
    (∀ s, runOutcome gp ta pn loc = .error s →
        getPlaceReviewsFromApis gp ta pn loc = s
        ∧ ("ERROR:" : String).data.isPrefixOf s.data = true)
    ∧ ∀ ps, runOutcome gp ta pn loc = .ok ps →
        getPlaceReviewsFromApis gp ta pn loc = concatPieces ps := by
  constructor
  · intro s hs
    refine ⟨by unfold getPlaceReviewsFromApis; rw [hs], ?_⟩
    have hclass : s = invalidPlaceNameMsg ∨ ∃ m, s = topLevelErrorMsg m := by
      unfold runOutcome at hs
      rcases pn with _ | pn0
      · exact .inl (by injection hs with h; exact h.symm)
      · dsimp only at hs
        by_cases hc : pyStrip pn0 = ""
        · rw [if_pos hc] at hs
          exact .inl (by injection hs with h; exact h.symm)
        · rw [if_neg hc] at hs
          split at hs
          · rename_i m _
            exact .inr ⟨m, by injection hs with h; exact h.symm⟩
          · cases hs
    rcases hclass with rfl | ⟨m, rfl⟩
    · decide
    · unfold topLevelErrorMsg
      simp only [String.data_append, List.append_assoc]
      exact isPrefixOf_append_left _ _ _ (by decide)
  · intro ps hps
    unfold getPlaceReviewsFromApis
    rw [hps]

/-- C3 (amended): the tool consults Provider A only through the single query
string `pyStrip place_name` — two Google oracles agreeing at the trimmed
place name produce identical output for every location hint, so the hint is
not part of Provider A's invocation and cannot narrow its search (it is used
only for the TripAdvisor candidates and the output header). -/
theorem claim_C3_amended (gp₁ gp₂ : GOracle) (ta : TAOracle) (pn : String)
    (loc : Option String) (h : gp₁ (pyStrip pn) = gp₂ (pyStrip pn)) :
    getPlaceReviewsFromApis gp₁ ta (some pn) loc
      = getPlaceReviewsFromApis gp₂ ta (some pn) loc := by
  have hg : googlePhase gp₁ (pyStrip pn) loc = googlePhase gp₂ (pyStrip pn) loc := by
    unfold googlePhase; rw [h]
  unfold getPlaceReviewsFromApis runOutcome
  dsimp only
  rw [hg]

/-- C3 (witness): two concrete Google oracles that differ away from
"Eiffel Tower" but agree there yield the same tool output. -/
theorem claim_C3_witness :
    getPlaceReviewsFromApis gOracleRecord taOracleBoom (some " Eiffel Tower ") (some "Paris, France")
      = getPlaceReviewsFromApis gOracleRecordAlt taOracleBoom (some " Eiffel Tower ") (some "Paris, France") :=
  claim_C3_amended gOracleRecord gOracleRecordAlt taOracleBoom " Eiffel Tower "
    (some "Paris, France") (by decide)

/-- C4: whenever both (lowercased) addresses yield a street number, the
numbers are equal, and the suffix-stripped street-name token sets share a
word longer than 2 characters, the reconciler declares an address match and
hence the same place. -/
theorem claim_C4 (g t : PlaceTriple)
    (hgn : (extractStreetInfo (pyLower (g.address.getD ""))).1 ≠ "")
    (htn : (extractStreetInfo (pyLower (t.address.getD ""))).1 ≠ "")
    (heq : (extractStreetInfo (pyLower (g.address.getD ""))).1
         = (extractStreetInfo (pyLower (t.address.getD ""))).1)
    (hw : ∃ w, w ∈ pyWords (extractStreetInfo (pyLower (g.address.getD ""))).2
             ∧ w ∈ pyWords (extractStreetInfo (pyLower (t.address.getD ""))).2
             ∧ 2 < w.length) :
    addressesMatch (pyLower (g.address.getD "")) (pyLower (t.address.getD "")) = true
    ∧ placesMatchBoth g t = true := by
  have ham : addressesMatch (pyLower (g.address.getD "")) (pyLower (t.address.getD "")) = true := by
    obtain ⟨w, hw1, hw2, hw3⟩ := hw
    simp only [addressesMatch]
    rw [if_pos ⟨hgn, htn⟩, if_pos heq]
    have hmem : w ∈ ((pyWords (extractStreetInfo (pyLower (g.address.getD ""))).2).filter
        (fun w => w ∈ pyWords (extractStreetInfo (pyLower (t.address.getD ""))).2)).filter
        (fun w => 2 < w.length) := by
      refine List.mem_filter.2 ⟨List.mem_filter.2 ⟨hw1, ?_⟩, ?_⟩ <;> simp [hw2, hw3]
    have hne := List.ne_nil_of_mem hmem
    simp only [Bool.not_eq_true', List.isEmpty_eq_false]
    exact hne
  refine ⟨ham, ?_⟩
  simp only [placesMatchBoth]
  rw [if_pos ham]

/-- C4 (witness): the spec's example addresses "19 Hayarkon St, Tel Aviv,
Israel" and "19 Hayarkon Street, Tel Aviv-Yafo, Israel" are judged the same
place on the address basis. -/
theorem claim_C4_witness :
    addressesMatch (pyLower (hayarkonG.address.getD "")) (pyLower (hayarkonT.address.getD "")) = true
    ∧ placesMatchBoth hayarkonG hayarkonT = true :=
  claim_C4 hayarkonG hayarkonT (by decide) (by decide) (by decide)
    ⟨"hayarkon", by decide, by decide, by decide⟩

/-- C5: the TripAdvisor candidate loop stops at the first success (any prefix
of failing candidates is skipped, the first succeeding candidate's data is
returned, later candidates are not consulted), and for Provider A address
"221B Baker St, London, UK" the candidate list is "London, UK" then
"London" (the caller's hint "London" deduplicated away), so the first
candidate attempted is "London, UK". -/
theorem claim_C5 :
    (∀ (ta : TAOracle) (q : String) (pre : List String) (l : String) (post : List String)
        (d : TAPlaceDetails),
        (∀ x ∈ pre, ∃ m, ta q (some x) = .exc m) →
        ta q (some l) = .ok d →
        runAttempts ta q (pre ++ l :: post) = .got (some d))
    ∧ attemptListOf "221B Baker St, London, UK" (some "London") = ["London, UK", "London"]
    ∧ (attemptListOf "221B Baker St, London, UK" none).head? = some "London, UK" := by
  refine ⟨?_, by decide, by decide⟩
  intro ta q pre
  induction pre with
  | nil =>
    intro l post d _ hok
    cases post with
    | nil => simp [runAttempts, hok]
    | cons p ps => simp [runAttempts, hok]
  | cons a pre ih =>
    intro l post d hpre hok
    obtain ⟨m, hm⟩ := hpre a (List.mem_cons_self a pre)
    rw [List.cons_append]
    cases hpp : pre ++ l :: post with
    | nil => exact absurd hpp (List.append_ne_nil_of_right_ne_nil _ (by simp))
    | cons y ys =>
      simp only [runAttempts, hm]
      rw [← hpp]
      exact ih l post d (fun x hx => hpre x (List.mem_cons_of_mem a hx)) hok

/-- C5 (witness): with an oracle failing at "London, UK" and succeeding at
"London", the loop returns the data of the first succeeding candidate. -/
theorem claim_C5_witness :
    runAttempts taOracleLondon "Sherlock Holmes Museum" (["London, UK"] ++ "London" :: [])
      = .got (some taLondonDetails) :=
  claim_C5.1 taOracleLondon "Sherlock Holmes Museum" ["London, UK"] "London" [] taLondonDetails
    (fun x hx => ⟨"fail", by rw [List.mem_singleton.mp hx]; decide⟩) rfl

/-- C9 (amended): every review surviving either normalizer has its rating, when
present, in `[0,5]`; TripAdvisor-normalized reviews additionally have
non-empty text, while a Google-normalized review always carries a rating in
`[1,5]` but its text may be the empty string (see the counterexample). -/
theorem claim_C9_amended :
    (∀ (raws : List TARawReview) (r : TAReview), r ∈ taParseReviews raws →
        r.text ≠ "" ∧ ∀ q, r.rating = some q → 0 ≤ q ∧ q ≤ 5)
    ∧ ∀ (raws : List GRawReview) (r : GReview), r ∈ gParseReviews raws →
        1 ≤ r.rating ∧ r.rating ≤ 5 := by
  constructor
  · intro raws r hr
    obtain ⟨raw, -, hparse⟩ := List.mem_filterMap.1 hr
    unfold taParseOne at hparse
    dsimp only at hparse
    split at hparse
    · rename_i htext
      split at hparse
      · rename_i v hv
        split at hparse
        · rename_i hrange
          injection hparse with h
          subst h
          refine ⟨htext, ?_⟩
          intro q hq
          have hvq : v = q := by injection hq
          subst hvq
          exact ⟨le_trans (by norm_num) hrange.1, hrange.2⟩
        · cases hparse
      · injection hparse with h
        subst h
        refine ⟨htext, ?_⟩
        intro q hq
        cases hq
    · cases hparse
  · intro raws r hr
    obtain ⟨raw, -, hparse⟩ := List.mem_filterMap.1 hr
    unfold gParseOne at hparse
    dsimp only at hparse
    split at hparse
    · rename_i hrange
      injection hparse with h
      subst h
      exact hrange
    · cases hparse

/-- C9 (witness): a concrete TripAdvisor raw record surviving normalization
satisfies the amended invariant. -/
theorem claim_C9_witness :
    (⟨some 4, "Great place", none, none⟩ : TAReview).text ≠ ""
    ∧ ∀ q, (⟨some 4, "Great place", none, none⟩ : TAReview).rating = some q →
        0 ≤ q ∧ q ≤ 5 :=
  claim_C9_amended.1 [taRawGood] ⟨some 4, "Great place", none, none⟩ (by decide)

/-! ### Counting marker pieces -/

theorem countP_ite_singleton_pos {p : String → Bool} {c : Prop} [Decidable c] {w : String}
    (hw : p w = true) :
    List.countP p (if c then [w] else []) = if c then 1 else 0 := by
  by_cases hc : c <;> simp [hc, List.countP_cons, List.countP_nil, hw]

theorem countP_ite_singleton_zero {p : String → Bool} {c : Prop} [Decidable c] {w : String}
    (hw : p w = false) :
    List.countP p (if c then [w] else []) = 0 := by
  by_cases hc : c <;> simp [hc, List.countP_cons, List.countP_nil, hw]

theorem countAvg_avgPieceList (pm : Bool) (x y : Option ℚ) :
    List.countP isAvgLine (avgPieceList pm x y)
      = if pm && x.isSome && y.isSome then 1 else 0 := by
  rcases pm <;> rcases x with _ | a <;> rcases y with _ | b <;>
    simp [avgPieceList, List.countP_cons, List.countP_nil, isAvgLine_avgRatingPiece]

theorem countWarn_avgPieceList (pm : Bool) (x y : Option ℚ) :
    List.countP isWarnBlock (avgPieceList pm x y) = 0 := by
  rcases pm <;> rcases x with _ | a <;> rcases y with _ | b <;>
    simp [avgPieceList, List.countP_cons, List.countP_nil, isWarnBlock_avgRatingPiece]

/-- C6: in the combined output's piece list, the averaged-rating line occurs
exactly once when the places are judged the same and both stored ratings are
present (and never otherwise), and the "WARNING: DIFFERENT PLACES" block
occurs exactly once when the places are judged different and both providers
returned data (and never otherwise).  The two provider detail blocks always
start with the fixed block head, which is what the two hypotheses record. -/
theorem claim_C6 (pn : String) (loc : Option String) (gpd tpd : Option PlaceTriple)
    (gOut tOut : String) (pm : Bool) (hg : hasBlockHead gOut) (ht : hasBlockHead tOut) :
    ((combinedPieces pn loc gpd tpd gOut tOut pm).countP isAvgLine
        = if pm && (gpd.bind (·.rating)).isSome && (tpd.bind (·.rating)).isSome then 1 else 0)
    ∧ ((combinedPieces pn loc gpd tpd gOut tOut pm).countP isWarnBlock
        = if !pm && gpd.isSome && tpd.isSome then 1 else 0) := by
  have hg1 := isAvgLine_of_blockHead hg
  have hg2 := isWarnBlock_of_blockHead hg
  have ht1 := isAvgLine_of_blockHead ht
  have ht2 := isWarnBlock_of_blockHead ht
  constructor
  · simp [combinedPieces, List.countP_append, List.countP_cons, List.countP_nil,
      countAvg_avgPieceList, countP_ite_singleton_zero (isAvgLine_warningPiece gpd tpd),
      isAvgLine_headerPiece, isAvgLine_locationInfoPiece, isAvgLine_sepPiece,
      isAvgLine_newline, isAvgLine_summaryPiece, hg1, ht1]
  · simp [combinedPieces, List.countP_append, List.countP_cons, List.countP_nil,
      countWarn_avgPieceList, countP_ite_singleton_pos (isWarnBlock_warningPiece gpd tpd),
      isWarnBlock_headerPiece, isWarnBlock_locationInfoPiece, isWarnBlock_sepPiece,
      isWarnBlock_newline, isWarnBlock_summaryPiece, hg2, ht2]

/-- C6 (witness): both providers succeed on the Eiffel Tower with matching
addresses — the combined output's pieces contain exactly one averaged-rating
line and zero warning blocks. -/
theorem claim_C6_witness :
    placesMatchBoth eiffelGTriple eiffelTTriple = true
    ∧ (combinedPieces "Eiffel Tower" (some "Paris, France") (some eiffelGTriple)
        (some eiffelTTriple)
        (formatPlaceReviewsOutput "Google Places" "Eiffel Tower" eiffelGTriple.address
          eiffelGTriple.rating (some 120000) [] none)
        (formatPlaceReviewsOutput "TripAdvisor" "Eiffel Tower" eiffelTTriple.address
          eiffelTTriple.rating (some 8000) [] none)
        (placesMatchBoth eiffelGTriple eiffelTTriple)).countP isAvgLine = 1
    ∧ (combinedPieces "Eiffel Tower" (some "Paris, France") (some eiffelGTriple)
        (some eiffelTTriple)
        (formatPlaceReviewsOutput "Google Places" "Eiffel Tower" eiffelGTriple.address
          eiffelGTriple.rating (some 120000) [] none)
        (formatPlaceReviewsOutput "TripAdvisor" "Eiffel Tower" eiffelTTriple.address
          eiffelTTriple.rating (some 8000) [] none)
        (placesMatchBoth eiffelGTriple eiffelTTriple)).countP isWarnBlock = 0 := by
  refine ⟨by decide, ?_, ?_⟩
  · exact ((claim_C6 _ _ _ _ _ _ _ (formatOutput_hasBlockHead _ _ _ _ _ _ _)
      (formatOutput_hasBlockHead _ _ _ _ _ _ _)).1).trans (by decide)
  · exact ((claim_C6 _ _ _ _ _ _ _ (formatOutput_hasBlockHead _ _ _ _ _ _ _)
      (formatOutput_hasBlockHead _ _ _ _ _ _ _)).2).trans (by decide)

/-- C8 (witness): whitespace-only input takes the validation branch. -/
theorem claim_C8_witness :
    getPlaceReviewsFromApis gOracleNotFound taOracleBoom (some "   ") none = invalidPlaceNameMsg
    ∧ strContains invalidPlaceNameMsg "ERROR" = true :=
  claim_C8 gOracleNotFound taOracleBoom (some "   ") none (.inr ⟨"   ", rfl, by decide⟩)

/-- C10 (witness): the `None` input is returned as the validation error string,
which begins with "ERROR:". -/
theorem claim_C10_witness :
    getPlaceReviewsFromApis gOracleNotFound taOracleBoom none none = invalidPlaceNameMsg
    ∧ ("ERROR:" : String).data.isPrefixOf invalidPlaceNameMsg.data = true :=
  (claim_C10 gOracleNotFound taOracleBoom none none).1 invalidPlaceNameMsg rfl

theorem data_concatPieces (ps : List String) :
    (concatPieces ps).data = (ps.map String.data).flatten := by
  induction ps with
  | nil => rfl
  | cons p ps ih => simp [concatPieces, String.data_append, ih]

theorem combined_contains (pn : String) (loc : Option String) (gpd tpd : Option PlaceTriple)
    (gOut tOut : String) (pm : Bool) :
    strContains (concatPieces (combinedPieces pn loc gpd tpd gOut tOut pm))
        "PLACE REVIEWS SUMMARY" = true
    ∧ strContains (concatPieces (combinedPieces pn loc gpd tpd gOut tOut pm)) pn = true := by
  constructor
  · apply strContains_of_data
    simp only [data_concatPieces, combinedPieces, headerPiece, List.map_append, List.map_cons,
      List.map_nil, List.flatten_append, List.flatten_cons, List.flatten_nil,
      String.data_append, List.append_assoc, List.append_nil]
    exact infix_append_left_of _ ((containsChars_correct _ _).1 (by decide))
  · apply strContains_of_data
    simp only [data_concatPieces, combinedPieces, headerPiece, List.map_append, List.map_cons,
      List.map_nil, List.flatten_append, List.flatten_cons, List.flatten_nil,
      String.data_append, List.append_assoc, List.append_nil]
    exact infix_append_right_of _ (infix_append_right_of _ (infix_append_right_of _
      (infix_append_right_of _ (List.prefix_append _ _).isInfix)))

/-- C1 (amended): for every valid (non-whitespace) `place_name` and all
provider outcomes other than the one escalation path (Google succeeding with
a multi-part address while every TripAdvisor candidate attempt raises — see
the counterexample), the returned string contains the "PLACE REVIEWS
SUMMARY" header and the trimmed place name, and is non-empty. -/
theorem claim_C1_amended (gp : GOracle) (ta : TAOracle) (pn : String) (loc : Option String)
    (hpn : pyStrip pn ≠ "")
    (hesc : (taPhase ta (pyStrip pn) loc (googlePhase gp (pyStrip pn) loc).1).isEscalate
        = false) :
    strContains (getPlaceReviewsFromApis gp ta (some pn) loc) "PLACE REVIEWS SUMMARY" = true
    ∧ strContains (getPlaceReviewsFromApis gp ta (some pn) loc) (pyStrip pn) = true
    ∧ getPlaceReviewsFromApis gp ta (some pn) loc ≠ "" := by
  obtain ⟨tadata, hta⟩ : ∃ d, taPhase ta (pyStrip pn) loc (googlePhase gp (pyStrip pn) loc).1
      = .got d := by
    rcases h : taPhase ta (pyStrip pn) loc (googlePhase gp (pyStrip pn) loc).1 with d | m
    · exact ⟨d, rfl⟩
    · rw [h] at hesc
      simp [TAPhaseResult.isEscalate] at hesc
  have key : ∀ pat : String,
      (∀ (gpd tpd : Option PlaceTriple) (gOut tOut : String) (pm : Bool),
        strContains (concatPieces (combinedPieces (pyStrip pn) loc gpd tpd gOut tOut pm)) pat
          = true) →
      strContains (getPlaceReviewsFromApis gp ta (some pn) loc) pat = true := by
    intro pat hall
    unfold getPlaceReviewsFromApis runOutcome
    dsimp only
    rw [if_neg hpn, hta]
    exact hall _ _ _ _ _
  refine ⟨key _ (fun gpd tpd gOut tOut pm => (combined_contains _ _ _ _ _ _ _).1),
          key _ (fun gpd tpd gOut tOut pm => (combined_contains _ _ _ _ _ _ _).2), ?_⟩
  intro h0
  have h1 := key "PLACE REVIEWS SUMMARY"
    (fun gpd tpd gOut tOut pm => (combined_contains _ _ _ _ _ _ _).1)
  rw [h0] at h1
  exact absurd h1 (by decide)

/-- C1 (amended, witness): a concrete non-escalating run — Google reports
not-found and the TripAdvisor fallback fails — still renders the full
template with the header and the place name. -/
theorem claim_C1_witness :
    strContains (getPlaceReviewsFromApis gOracleNotFound taOracleBoom (some "Atlantis") none)
        "PLACE REVIEWS SUMMARY" = true
    ∧ strContains (getPlaceReviewsFromApis gOracleNotFound taOracleBoom (some "Atlantis") none)
        (pyStrip "Atlantis") = true
    ∧ getPlaceReviewsFromApis gOracleNotFound taOracleBoom (some "Atlantis") none ≠ "" :=
  claim_C1_amended gOracleNotFound taOracleBoom "Atlantis" none (by decide) (by decide)
